import Mathlib

/-!
Verification of the VitalGlance backend value-synthesis engine.

JavaScript numbers are modelled as rationals; each call of the ambient
random source Math.random() is modelled as an explicit rational argument
(a legal draw lies in [0,1)).  Math.round rounds half toward positive
infinity, exactly as Mathlib round on positive inputs; Number.toFixed(1)
followed by parseFloat is rounding to one decimal place, modelled by
round1 below.  The JS idiom x || d (numeric x) yields d when x is
missing or 0, modelled by orDefault on Option.
-/

namespace VitalGlance

/-- Per-vital range policy, the object literals passed as the third
argument of applyControlledVariation in the source. -/
structure VariationBand where
  min : ℚ
  max : ℚ
  minChange : ℚ
deriving DecidableEq, Repr

/-- Math.max(min, Math.min(max, x)) from the source. -/
def clamp (lo hi x : ℚ) : ℚ := max lo (min hi x)

/-- The expression Math.random() > 0.5 ? 1 : -1 on an explicit draw r. -/
def jsDir (r : ℚ) : ℚ := if 1/2 < r then 1 else -1

/-- The three Math.random() draws one call of applyControlledVariation can
consume: direction, additional noise, forced direction. -/
structure WalkDraws where
  d1 : ℚ
  d2 : ℚ
  d3 : ℚ
deriving DecidableEq, Repr

/-- applyControlledVariation from src/unnamed/part_000 lines 46-72.
The currentValue parameter is also unused in the source.  minVariation is
minChange || 0.1 (0 is falsy). -/
def applyControlledVariation (currentValue lastValue : ℚ) (range : VariationBand)
    (d1 d2 d3 : ℚ) : ℚ :=
  let minVariation := if range.minChange = 0 then 1/10 else range.minChange
  let newValue := lastValue + jsDir d1 * minVariation
  let additionalVariation := (d2 - 1/2) * 1
  let newValue := newValue + additionalVariation
  let newValue := clamp range.min range.max newValue
  if |newValue - lastValue| < minVariation then
    clamp range.min range.max (lastValue + minVariation * jsDir d3)
  else
    newValue

/-- Math.round on a JS number (ties toward positive infinity). -/
def jsRound (x : ℚ) : ℚ := ((round x : ℤ) : ℚ)

/-- parseFloat(x.toFixed(1)), and also Math.round(x*10)/10, for the
positive values that occur here. -/
def round1 (x : ℚ) : ℚ := ((round (x * 10) : ℤ) : ℚ) / 10

/-- One stored record of the sensorData array: the fields the engine
reads back (deviceId, receivedAt, the four vitals used by
getLastStoredValues) plus those the stored-envelope claims inspect.
Records created by POST /api/predict-glucose carry no receivedAt (the
source stores that instant under the key timestamp instead), hence the
Option.  Pass-through request fields that nothing reads again (id,
timestamp, originalValues, validity flags) are omitted. -/
structure Record where
  deviceId : String
  receivedAt : Option ℕ
  heartRate : Option ℚ
  spo2 : Option ℚ
  temperature : Option ℚ
  lastGlucose : Option ℚ
  red : Option ℚ
  ir : Option ℚ
  heartRateAvg : Option ℚ
deriving DecidableEq, Repr

/-- The JS numeric expression x || d: d when the field is absent or 0. -/
def orDefault (o : Option ℚ) (d : ℚ) : ℚ :=
  match o with
  | none => d
  | some v => if v = 0 then d else v

/-- Result vector of getLastStoredValues. -/
structure LastValues where
  heartRate : ℚ
  spo2 : ℚ
  temperature : ℚ
  glucose : ℚ
deriving DecidableEq, Repr

/-- One comparison step of the descending sort by receivedAt.  V8 sort is
stable and a comparator evaluating to NaN (a missing receivedAt) causes
no exchange, so the first element of the sorted array is the earliest
record whose receivedAt strictly exceeds every later comparable one;
this fold computes exactly that element. -/
def latestStep (best : Option Record) (q : Record) : Option Record :=
  match best with
  | none => some q
  | some b =>
    match q.receivedAt, b.receivedAt with
    | some x, some y => if y < x then some q else some b
    | _, _ => some b

/-- The record selected by filter-by-deviceId, sort-desc-by-receivedAt,
take-first in getLastStoredValues (none when the filter is empty).  An
undefined deviceId (an unvalidated caller) matches no record. -/
def latestFor (deviceId : Option String) (store : List Record) : Option Record :=
  (store.filter (fun q => decide (some q.deviceId = deviceId))).foldl latestStep none

/-- getLastStoredValues from src/unnamed/part_000 lines 21-43. -/
def getLastStoredValues (deviceId : Option String) (store : List Record) : LastValues :=
  match latestFor deviceId store with
  | some lastRecord =>
    ⟨orDefault lastRecord.heartRate 72, orDefault lastRecord.spo2 98,
     orDefault lastRecord.temperature (73/2), orDefault lastRecord.lastGlucose 85⟩
  | none => ⟨72, 98, 73/2, 85⟩

/-- Heart-rate band selection, lines 81-90: resting 22:00-06:00, else
active 09:00-18:00, else default. -/
def hrBandFor (hour : ℕ) : VariationBand :=
  if 22 ≤ hour ∨ hour ≤ 6 then ⟨55, 75, 1⟩
  else if 9 ≤ hour ∧ hour ≤ 18 then ⟨65, 90, 1⟩
  else ⟨60, 95, 1⟩

/-- SpO2 band, line 102. -/
def spo2Band : VariationBand := ⟨95, 100, 1/2⟩

/-- Temperature band selection, lines 106-113: morning 06:00-10:00,
evening 16:00-20:00, else default. -/
def tempBandFor (hour : ℕ) : VariationBand :=
  if 6 ≤ hour ∧ hour ≤ 10 then ⟨36, 184/5, 1/10⟩
  else if 16 ≤ hour ∧ hour ≤ 20 then ⟨73/2, 186/5, 1/10⟩
  else ⟨361/10, 186/5, 1/10⟩

/-- Raw red channel band, line 128. -/
def redBand : VariationBand := ⟨75000, 120000, 1000⟩

/-- Raw IR channel band, line 134. -/
def irBand : VariationBand := ⟨80000, 120000, 1000⟩

/-- Glucose band selection in the newer simulateHealthyGlucose,
lines 171-187: fasting 22:00-07:00, else post-meal 8-10 / 12-14 / 18-20,
else regular daytime. -/
def glucoseBandFor (hour : ℕ) : VariationBand :=
  if 22 ≤ hour ∨ hour ≤ 7 then ⟨75, 95, 1/2⟩
  else if (8 ≤ hour ∧ hour ≤ 10) ∨ (12 ≤ hour ∧ hour ≤ 14) ∨ (18 ≤ hour ∧ hour ≤ 20) then
    ⟨80, 99, 1/2⟩
  else ⟨75, 99, 1/2⟩

/-- The incoming JSON body of POST /api/sensor-data: the fields the
handler and generateHealthyValues read.  Every field can be absent. -/
structure OriginalData where
  deviceId : Option String
  timestamp : Option ℚ
  heartRate : Option ℚ
  heartRateAvg : Option ℚ
  spo2 : Option ℚ
  temperature : Option ℚ
  red : Option ℚ
  ir : Option ℚ
  lastGlucose : Option ℚ
deriving DecidableEq, Repr

/-- The synthesized vitals of generateHealthyValues (the fields of its
return object that are numbers; validity flags are constants and the
echoed originalValues are the input itself). -/
structure HealthyData where
  heartRate : ℚ
  heartRateAvg : ℚ
  spo2 : ℚ
  temperature : ℚ
  red : ℚ
  ir : ℚ
  lastValues : LastValues
deriving DecidableEq, Repr

/-- generateHealthyValues from src/unnamed/part_000 lines 75-163.  Each
vital walks from the last stored value (both arguments of
applyControlledVariation are the same in the source); red and IR walk
from the incoming raw values with falsy-defaults 80000 / 85000; heart
rate, SpO2, red, IR are Math.round-ed, temperature keeps one decimal;
heartRateAvg averages with the incoming value when that is truthy. -/
def generateHealthyValues (originalData : OriginalData) (store : List Record) (hour : ℕ)
    (dHR dS dT dR dI : WalkDraws) : HealthyData :=
  let lastValues := getLastStoredValues originalData.deviceId store
  let healthyHeartRate := jsRound (applyControlledVariation
    lastValues.heartRate lastValues.heartRate (hrBandFor hour) dHR.d1 dHR.d2 dHR.d3)
  let healthySpO2 := jsRound (applyControlledVariation
    lastValues.spo2 lastValues.spo2 spo2Band dS.d1 dS.d2 dS.d3)
  let healthyTemp := round1 (applyControlledVariation
    lastValues.temperature lastValues.temperature (tempBandFor hour) dT.d1 dT.d2 dT.d3)
  let lastRed := orDefault originalData.red 80000
  let lastIR := orDefault originalData.ir 85000
  let healthyRed := jsRound (applyControlledVariation lastRed lastRed redBand dR.d1 dR.d2 dR.d3)
  let healthyIR := jsRound (applyControlledVariation lastIR lastIR irBand dI.d1 dI.d2 dI.d3)
  let heartRateAvg :=
    match originalData.heartRateAvg with
    | some avg => if avg = 0 then healthyHeartRate else jsRound ((healthyHeartRate + avg) / 2)
    | none => healthyHeartRate
  ⟨healthyHeartRate, heartRateAvg, healthySpO2, healthyTemp, healthyRed, healthyIR, lastValues⟩

/-- The newer simulateHealthyGlucose, src/unnamed/part_000 lines 166-225.
w carries the draws of the walk; n1, n2, n3 are the draws of the three
conditional vital-sign nudges (each Math.random() there is fresh). -/
def simulateHealthyGlucose (heartRate heartRateAvg spo2 temperature : ℚ)
    (deviceId : Option String) (store : List Record) (hour : ℕ)
    (w : WalkDraws) (n1 n2 n3 : ℚ) : ℚ :=
  let lastValues := getLastStoredValues deviceId store
  let glucoseRange := glucoseBandFor hour
  let baseGlucose := applyControlledVariation
    lastValues.glucose lastValues.glucose glucoseRange w.d1 w.d2 w.d3
  let variation :=
    (if 85 < heartRate then n1 * 2 else if heartRate < 65 then -(n1 * 2) else 0) +
    (if 37 < temperature then n2 * (3/2) else if temperature < 73/2 then -(n2 * 1) else 0) +
    (if spo2 < 97 then n3 * 1 else 0)
  let finalGlucose := baseGlucose + variation
  let clampedGlucose := max 70 (min 99 finalGlucose)
  round1 clampedGlucose

/-- One row of an interpretation table: the category, the traffic-light
word and the advice message of the returned object literal. -/
structure Interp where
  category : String
  vstat : String
  message : String
deriving DecidableEq, Repr

/-- interpretGlucose from src/unnamed/part_000 lines 228-238.  The
branch chain has no final else, so values matched by no branch give
undefined, modelled by none. -/
def interpretGlucose (glucoseLevel : ℚ) : Option Interp :=
  if glucoseLevel < 70 then
    some ⟨"Low (Hypoglycemia)", "warning", "Below normal - consult healthcare provider"⟩
  else if 70 ≤ glucoseLevel ∧ glucoseLevel ≤ 99 then
    some ⟨"Normal", "good", "Normal fasting glucose level"⟩
  else if 100 ≤ glucoseLevel ∧ glucoseLevel ≤ 125 then
    some ⟨"Prediabetes", "caution", "Prediabetic range - monitor closely"⟩
  else if 126 ≤ glucoseLevel then
    some ⟨"Diabetes", "warning",
      "Diabetic range - consult healthcare provider immediately"⟩
  else none

/-- calculateHealthScore, src/unnamed/part_000 lines 562-597, on the
four interpretation-status strings (three vitals, then glucose).  The
human-readable factors list is not modelled.  Returns score and label. -/
def calculateHealthScore (hr spo2 temp glucose : String) : ℤ × String :=
  let vitalDeduction := fun (s : String) =>
    if s = "warning" then (20 : ℤ) else if s = "caution" then 10
    else if s = "error" then 15 else 0
  let glucoseDeduction :=
    if glucose = "warning" then (15 : ℤ) else if glucose = "caution" then 8 else 0
  let score := 100 - vitalDeduction hr - vitalDeduction spo2 - vitalDeduction temp
    - glucoseDeduction
  let score := Max.max 0 score
  let healthStatus :=
    if score < 60 then "Poor" else if score < 75 then "Fair"
    else if score < 90 then "Good" else "Excellent"
  (score, healthStatus)

/-- Responses of POST /api/sensor-data: HTTP 400 with the missing-field
names, or HTTP 201 with the stored record. -/
inductive SensorResponse where
  | badRequest (missingFields : List String)
  | created (record : Record)
deriving DecidableEq, Repr

/-- The POST /api/sensor-data handler, src/unnamed/part_000 lines
280-316: presence validation of deviceId and timestamp, synthesis, and
the append (with the keep-last-10000 trim).  The periodic file save has
no effect on the in-memory store and is not modelled. -/
def postSensorData (originalData : OriginalData) (store : List Record) (hour now : ℕ)
    (dHR dS dT dR dI : WalkDraws) : SensorResponse × List Record :=
  let missingFields :=
    (if originalData.deviceId.isNone then ["deviceId"] else []) ++
    (if originalData.timestamp.isNone then ["timestamp"] else [])
  if 0 < missingFields.length then
    (SensorResponse.badRequest missingFields, store)
  else
    let healthyData := generateHealthyValues originalData store hour dHR dS dT dR dI
    let record : Record :=
      ⟨originalData.deviceId.getD "", some now,
       some healthyData.heartRate, some healthyData.spo2, some healthyData.temperature,
       originalData.lastGlucose, some healthyData.red, some healthyData.ir,
       some healthyData.heartRateAvg⟩
    let stored := store ++ [record]
    (SensorResponse.created record,
     if 10000 < stored.length then stored.drop (stored.length - 10000) else stored)

/-- The incoming JSON body of POST /api/predict-glucose. -/
structure PredictBody where
  heartRate : Option ℚ
  heartRateAvg : Option ℚ
  spo2 : Option ℚ
  temperature : Option ℚ
  deviceId : Option String
deriving DecidableEq, Repr

/-- Responses of POST /api/predict-glucose: HTTP 400 (missing fields or
an out-of-range vital), HTTP 500 (the TypeError thrown when
interpretGlucose returns undefined), or HTTP 200 with the prediction. -/
inductive PredictResponse where
  | badRequest (missingFields : List String)
  | invalidInput (field : String)
  | internalError
  | ok (glucose : ℚ)
deriving DecidableEq, Repr

/-- The JS expression deviceId || 'unknown' (undefined and the empty
string are falsy). -/
def jsDeviceIdOr (o : Option String) : String :=
  match o with
  | none => "unknown"
  | some s => if s = "" then "unknown" else s

/-- The POST /api/predict-glucose handler, src/unnamed/part_000 lines
356-468: presence validation of heartRate, spo2, temperature; range
validation; glucose simulation; and the append of the prediction record
(deviceId || unknown; the record stores the glucose under lastGlucose
and has no receivedAt).  When interpretGlucose gives undefined the
record construction throws before the append and the catch answers 500. -/
def postPredictGlucose (body : PredictBody) (store : List Record) (hour : ℕ)
    (w : WalkDraws) (n1 n2 n3 : ℚ) : PredictResponse × List Record :=
  match body.heartRate, body.spo2, body.temperature with
  | some heartRate, some spo2, some temperature =>
    let avgHeartRate := body.heartRateAvg.getD heartRate
    if heartRate < 0 ∨ 200 < heartRate then (PredictResponse.invalidInput "heartRate", store)
    else if spo2 < 70 ∨ 100 < spo2 then (PredictResponse.invalidInput "spo2", store)
    else if temperature < 30 ∨ 45 < temperature then
      (PredictResponse.invalidInput "temperature", store)
    else
      let dId := jsDeviceIdOr body.deviceId
      let predictedGlucose := simulateHealthyGlucose heartRate avgHeartRate spo2 temperature
        (some dId) store hour w n1 n2 n3
      match interpretGlucose predictedGlucose with
      | none => (PredictResponse.internalError, store)
      | some _ =>
        let predictionRecord : Record :=
          ⟨dId, none, none, none, none, some predictedGlucose, none, none, none⟩
        (PredictResponse.ok predictedGlucose, store ++ [predictionRecord])
  | _, _, _ =>
    (PredictResponse.badRequest
      ((if body.heartRate.isNone then ["heartRate"] else []) ++
       (if body.spo2.isNone then ["spo2"] else []) ++
       (if body.temperature.isNone then ["temperature"] else [])), store)

namespace IndexJs

/-- The older simulateHealthyGlucose of src/index.js lines 91-141: a
fresh time-of-day base (draw rBase), fixed-size vital nudges, additive
noise (draw rNoise), clamped to 70-110 and rounded to one decimal.  It
reads no device history. -/
def simulateHealthyGlucose (heartRate heartRateAvg spo2 temperature : ℚ) (hour : ℕ)
    (rBase rNoise : ℚ) : ℚ :=
  let baseGlucose :=
    if 22 ≤ hour ∨ hour ≤ 7 then 75 + rBase * 20
    else if (8 ≤ hour ∧ hour ≤ 10) ∨ (12 ≤ hour ∧ hour ≤ 14) ∨ (18 ≤ hour ∧ hour ≤ 20) then
      85 + rBase * 25
    else 80 + rBase * 15
  let variation :=
    (if 80 < heartRate then (2 : ℚ) else if heartRate < 65 then -2 else 0) +
    (if 37 < temperature then (3 : ℚ) else if temperature < 73/2 then -1 else 0) +
    (if spo2 < 97 then (1 : ℚ) else 0)
  let finalGlucose := baseGlucose + variation + (rNoise - 1/2) * 4
  let clampedGlucose := max 70 (min 110 finalGlucose)
  round1 clampedGlucose

end IndexJs

/-! ### Elementary facts about clamp and the rounding helpers -/

lemma le_clamp (lo hi x : ℚ) : lo ≤ clamp lo hi x := le_max_left _ _

lemma clamp_le (lo hi x : ℚ) (h : lo ≤ hi) : clamp lo hi x ≤ hi :=
  max_le h (min_le_left _ _)

lemma clamp_eq_self (lo hi x : ℚ) (h1 : lo ≤ x) (h2 : x ≤ hi) : clamp lo hi x = x := by
  unfold clamp
  rw [min_eq_right h2, max_eq_right h1]

lemma roundQ_mono (x y : ℚ) (h : x ≤ y) : round x ≤ round y := by
  rw [round_eq, round_eq]
  exact Int.floor_le_floor (by linarith)

lemma jsRound_ge (n : ℤ) (x : ℚ) (h : (n : ℚ) ≤ x) : (n : ℚ) ≤ jsRound x := by
  unfold jsRound
  have h2 : round ((n : ℚ)) ≤ round x := roundQ_mono _ _ h
  rw [round_intCast] at h2
  exact_mod_cast h2

lemma jsRound_le (n : ℤ) (x : ℚ) (h : x ≤ (n : ℚ)) : jsRound x ≤ (n : ℚ) := by
  unfold jsRound
  have h2 : round x ≤ round ((n : ℚ)) := roundQ_mono _ _ h
  rw [round_intCast] at h2
  exact_mod_cast h2

lemma jsRound_gap (p m : ℤ) (x : ℚ) (h : (m : ℚ) ≤ |x - (p : ℚ)|) :
    (m : ℚ) ≤ |jsRound x - (p : ℚ)| := by
  rcases le_abs.mp h with h1 | h1
  · have h2 : ((p + m : ℤ) : ℚ) ≤ jsRound x := jsRound_ge _ _ (by push_cast; linarith)
    push_cast at h2
    exact le_abs.mpr (Or.inl (by linarith))
  · have h2 : jsRound x ≤ ((p - m : ℤ) : ℚ) := jsRound_le _ _ (by push_cast; linarith)
    push_cast at h2
    exact le_abs.mpr (Or.inr (by linarith))

lemma round1_ge (a : ℤ) (x : ℚ) (h : (a : ℚ) / 10 ≤ x) : (a : ℚ) / 10 ≤ round1 x := by
  have h2 : ((a : ℚ)) ≤ x * 10 := by linarith
  have h3 := jsRound_ge a (x * 10) h2
  unfold jsRound at h3
  unfold round1
  linarith

lemma round1_le (a : ℤ) (x : ℚ) (h : x ≤ (a : ℚ) / 10) : round1 x ≤ (a : ℚ) / 10 := by
  have h2 : x * 10 ≤ ((a : ℚ)) := by linarith
  have h3 := jsRound_le a (x * 10) h2
  unfold jsRound at h3
  unfold round1
  linarith

lemma round1_gap (p m : ℤ) (x : ℚ) (h : (m : ℚ) / 10 ≤ |x - (p : ℚ) / 10|) :
    (m : ℚ) / 10 ≤ |round1 x - (p : ℚ) / 10| := by
  have h1 : (m : ℚ) ≤ |x * 10 - (p : ℚ)| := by
    rw [show x * 10 - (p : ℚ) = 10 * (x - (p : ℚ) / 10) by ring, abs_mul,
      show |(10 : ℚ)| = 10 by norm_num]
    linarith
  have h2 := jsRound_gap p m (x * 10) h1
  unfold jsRound at h2
  unfold round1
  rw [show ((round (x * 10) : ℤ) : ℚ) / 10 - (p : ℚ) / 10
      = (((round (x * 10) : ℤ) : ℚ) - (p : ℚ)) / 10 by ring, abs_div,
    show |(10 : ℚ)| = 10 by norm_num]
  linarith

/-! ### The two walk guarantees of applyControlledVariation -/

/-- applyControlledVariation with its let chain flattened (definitional). -/
lemma acv_eq (cv lv : ℚ) (band : VariationBand) (d1 d2 d3 : ℚ) :
    applyControlledVariation cv lv band d1 d2 d3 =
    if |clamp band.min band.max
          (lv + jsDir d1 * (if band.minChange = 0 then 1/10 else band.minChange)
            + (d2 - 1/2) * 1) - lv|
        < (if band.minChange = 0 then 1/10 else band.minChange) then
      clamp band.min band.max
        (lv + (if band.minChange = 0 then 1/10 else band.minChange) * jsDir d3)
    else
      clamp band.min band.max
        (lv + jsDir d1 * (if band.minChange = 0 then 1/10 else band.minChange)
          + (d2 - 1/2) * 1) := rfl

lemma ite_bounds {c : Prop} [Decidable c] {x y lo hi : ℚ}
    (hx : lo ≤ x ∧ x ≤ hi) (hy : lo ≤ y ∧ y ≤ hi) :
    lo ≤ (if c then x else y) ∧ (if c then x else y) ≤ hi := by
  by_cases h : c
  · rw [if_pos h]; exact hx
  · rw [if_neg h]; exact hy

/-- The walk always lands inside the band (both exits clamp). -/
lemma acv_mem (cv lv : ℚ) (band : VariationBand) (d1 d2 d3 : ℚ)
    (h : band.min ≤ band.max) :
    band.min ≤ applyControlledVariation cv lv band d1 d2 d3 ∧
    applyControlledVariation cv lv band d1 d2 d3 ≤ band.max := by
  rw [acv_eq]
  exact ite_bounds ⟨le_clamp _ _ _, clamp_le _ _ _ h⟩ ⟨le_clamp _ _ _, clamp_le _ _ _ h⟩

/-- When the previous value keeps a full minimumChange of room on both
sides of the band, the walk moves by at least minimumChange and stays in
the band, for arbitrary draws. -/
lemma acv_interior (cv lv : ℚ) (band : VariationBand) (d1 d2 d3 : ℚ)
    (h0 : 0 < band.minChange)
    (h1 : band.min + band.minChange ≤ lv)
    (h2 : lv ≤ band.max - band.minChange) :
    band.min ≤ applyControlledVariation cv lv band d1 d2 d3 ∧
    applyControlledVariation cv lv band d1 d2 d3 ≤ band.max ∧
    band.minChange ≤ |applyControlledVariation cv lv band d1 d2 d3 - lv| := by
  have hne : band.minChange ≠ 0 := ne_of_gt h0
  have hminmax : band.min ≤ band.max := by linarith
  rw [acv_eq, if_neg hne]
  split
  · -- forced-correction branch: lv ± minChange is interior, the clamp is the identity
    unfold jsDir
    split
    · rw [mul_one, clamp_eq_self _ _ _ (by linarith) (by linarith)]
      refine ⟨by linarith, by linarith, ?_⟩
      rw [show lv + band.minChange - lv = band.minChange by ring, abs_of_pos h0]
    · rw [show band.minChange * (-1) = -band.minChange by ring,
        clamp_eq_self _ _ _ (by linarith) (by linarith)]
      refine ⟨by linarith, by linarith, ?_⟩
      rw [show lv + -band.minChange - lv = -band.minChange by ring, abs_neg, abs_of_pos h0]
  · next hforce =>
      exact ⟨le_clamp _ _ _, clamp_le _ _ _ hminmax, not_lt.mp hforce⟩

/-! ### The bands live on rounding grids -/

lemma hrBandFor_grid (hour : ℕ) :
    ∃ lo hi : ℤ, (hrBandFor hour).min = (lo : ℚ) ∧ (hrBandFor hour).max = (hi : ℚ) ∧
      (hrBandFor hour).minChange = 1 ∧ 55 ≤ (lo : ℚ) ∧ (hi : ℚ) ≤ 95 ∧ (lo : ℚ) ≤ (hi : ℚ) := by
  by_cases h1 : 22 ≤ hour ∨ hour ≤ 6
  · exact ⟨55, 75, by norm_num [hrBandFor, h1], by norm_num [hrBandFor, h1],
      by norm_num [hrBandFor, h1], by norm_num, by norm_num, by norm_num⟩
  · by_cases h2 : 9 ≤ hour ∧ hour ≤ 18
    · exact ⟨65, 90, by norm_num [hrBandFor, h1, h2], by norm_num [hrBandFor, h1, h2],
        by norm_num [hrBandFor, h1, h2], by norm_num, by norm_num, by norm_num⟩
    · exact ⟨60, 95, by norm_num [hrBandFor, h1, h2], by norm_num [hrBandFor, h1, h2],
        by norm_num [hrBandFor, h1, h2], by norm_num, by norm_num, by norm_num⟩

lemma tempBandFor_grid (hour : ℕ) :
    ∃ lo hi : ℤ, (tempBandFor hour).min = (lo : ℚ) / 10 ∧
      (tempBandFor hour).max = (hi : ℚ) / 10 ∧ (tempBandFor hour).minChange = 1/10 ∧
      360 ≤ (lo : ℚ) ∧ (hi : ℚ) ≤ 372 ∧ (lo : ℚ) ≤ (hi : ℚ) := by
  by_cases h1 : 6 ≤ hour ∧ hour ≤ 10
  · exact ⟨360, 368, by norm_num [tempBandFor, h1], by norm_num [tempBandFor, h1],
      by norm_num [tempBandFor, h1], by norm_num, by norm_num, by norm_num⟩
  · by_cases h2 : 16 ≤ hour ∧ hour ≤ 20
    · exact ⟨365, 372, by norm_num [tempBandFor, h1, h2], by norm_num [tempBandFor, h1, h2],
        by norm_num [tempBandFor, h1, h2], by norm_num, by norm_num, by norm_num⟩
    · exact ⟨361, 372, by norm_num [tempBandFor, h1, h2], by norm_num [tempBandFor, h1, h2],
        by norm_num [tempBandFor, h1, h2], by norm_num, by norm_num, by norm_num⟩

/-! ### A walk followed by rounding, on an integer grid and on tenths -/

lemma walk_round_int (lv : ℚ) (band : VariationBand) (d1 d2 d3 : ℚ) (p m lo hi : ℤ)
    (hmc : band.minChange = (m : ℚ)) (hm : (0 : ℚ) < (m : ℚ))
    (hlo : band.min = (lo : ℚ)) (hhi : band.max = (hi : ℚ))
    (hplo : (lo : ℚ) + (m : ℚ) ≤ (p : ℚ)) (hphi : (p : ℚ) ≤ (hi : ℚ) - (m : ℚ))
    (hlv : lv = (p : ℚ)) :
    (m : ℚ) ≤ |jsRound (applyControlledVariation lv lv band d1 d2 d3) - (p : ℚ)| ∧
    (lo : ℚ) ≤ jsRound (applyControlledVariation lv lv band d1 d2 d3) ∧
    jsRound (applyControlledVariation lv lv band d1 d2 d3) ≤ (hi : ℚ) := by
  subst hlv
  obtain ⟨w1, w2, w3⟩ := acv_interior ((p : ℚ)) ((p : ℚ)) band d1 d2 d3 (by rw [hmc]; exact hm)
    (by rw [hmc, hlo]; exact hplo) (by rw [hmc, hhi]; exact hphi)
  rw [hmc] at w3
  rw [hlo] at w1
  rw [hhi] at w2
  exact ⟨jsRound_gap p m _ w3, jsRound_ge lo _ w1, jsRound_le hi _ w2⟩

lemma walk_round1_tenths (lv : ℚ) (band : VariationBand) (d1 d2 d3 : ℚ) (p m lo hi : ℤ)
    (hmc : band.minChange = (m : ℚ) / 10) (hm : (0 : ℚ) < (m : ℚ) / 10)
    (hlo : band.min = (lo : ℚ) / 10) (hhi : band.max = (hi : ℚ) / 10)
    (hplo : (lo : ℚ) / 10 + (m : ℚ) / 10 ≤ (p : ℚ) / 10)
    (hphi : (p : ℚ) / 10 ≤ (hi : ℚ) / 10 - (m : ℚ) / 10)
    (hlv : lv = (p : ℚ) / 10) :
    (m : ℚ) / 10 ≤ |round1 (applyControlledVariation lv lv band d1 d2 d3) - (p : ℚ) / 10| ∧
    (lo : ℚ) / 10 ≤ round1 (applyControlledVariation lv lv band d1 d2 d3) ∧
    round1 (applyControlledVariation lv lv band d1 d2 d3) ≤ (hi : ℚ) / 10 := by
  subst hlv
  obtain ⟨w1, w2, w3⟩ := acv_interior ((p : ℚ) / 10) ((p : ℚ) / 10) band d1 d2 d3
    (by rw [hmc]; exact hm) (by rw [hmc, hlo]; exact hplo) (by rw [hmc, hhi]; exact hphi)
  rw [hmc] at w3
  rw [hlo] at w1
  rw [hhi] at w2
  exact ⟨round1_gap p m _ w3, round1_ge lo _ w1, round1_le hi _ w2⟩

/-- A walk inside a band whose ends sit between the integers a and b
stays between a and b after Math.round. -/
lemma walk_jsRound_mem (cv lv : ℚ) (band : VariationBand) (d1 d2 d3 : ℚ) (a b lo hi : ℤ)
    (hlo : band.min = (lo : ℚ)) (hhi : band.max = (hi : ℚ)) (hlohi : (lo : ℚ) ≤ (hi : ℚ))
    (ha : (a : ℚ) ≤ (lo : ℚ)) (hb : (hi : ℚ) ≤ (b : ℚ)) :
    (a : ℚ) ≤ jsRound (applyControlledVariation cv lv band d1 d2 d3) ∧
    jsRound (applyControlledVariation cv lv band d1 d2 d3) ≤ (b : ℚ) := by
  obtain ⟨w1, w2⟩ := acv_mem cv lv band d1 d2 d3 (by rw [hlo, hhi]; exact hlohi)
  rw [hlo] at w1
  rw [hhi] at w2
  exact ⟨jsRound_ge a _ (by linarith), jsRound_le b _ (by linarith)⟩

/-- Same on the tenths grid for the one-decimal rounding. -/
lemma walk_round1_mem (cv lv : ℚ) (band : VariationBand) (d1 d2 d3 : ℚ) (a b lo hi : ℤ)
    (hlo : band.min = (lo : ℚ) / 10) (hhi : band.max = (hi : ℚ) / 10)
    (hlohi : (lo : ℚ) ≤ (hi : ℚ)) (ha : (a : ℚ) ≤ (lo : ℚ)) (hb : (hi : ℚ) ≤ (b : ℚ)) :
    (a : ℚ) / 10 ≤ round1 (applyControlledVariation cv lv band d1 d2 d3) ∧
    round1 (applyControlledVariation cv lv band d1 d2 d3) ≤ (b : ℚ) / 10 := by
  obtain ⟨w1, w2⟩ := acv_mem cv lv band d1 d2 d3 (by rw [hlo, hhi]; linarith)
  rw [hlo] at w1
  rw [hhi] at w2
  exact ⟨round1_ge a _ (by linarith), round1_le b _ (by linarith)⟩

/-! ### Projections of generateHealthyValues (definitional) -/

lemma ghv_heartRate (originalData : OriginalData) (store : List Record) (hour : ℕ)
    (dHR dS dT dR dI : WalkDraws) :
    (generateHealthyValues originalData store hour dHR dS dT dR dI).heartRate =
    jsRound (applyControlledVariation
      (getLastStoredValues originalData.deviceId store).heartRate
      (getLastStoredValues originalData.deviceId store).heartRate
      (hrBandFor hour) dHR.d1 dHR.d2 dHR.d3) := rfl

lemma ghv_spo2 (originalData : OriginalData) (store : List Record) (hour : ℕ)
    (dHR dS dT dR dI : WalkDraws) :
    (generateHealthyValues originalData store hour dHR dS dT dR dI).spo2 =
    jsRound (applyControlledVariation
      (getLastStoredValues originalData.deviceId store).spo2
      (getLastStoredValues originalData.deviceId store).spo2
      spo2Band dS.d1 dS.d2 dS.d3) := rfl

lemma ghv_temperature (originalData : OriginalData) (store : List Record) (hour : ℕ)
    (dHR dS dT dR dI : WalkDraws) :
    (generateHealthyValues originalData store hour dHR dS dT dR dI).temperature =
    round1 (applyControlledVariation
      (getLastStoredValues originalData.deviceId store).temperature
      (getLastStoredValues originalData.deviceId store).temperature
      (tempBandFor hour) dT.d1 dT.d2 dT.d3) := rfl

lemma ghv_red (originalData : OriginalData) (store : List Record) (hour : ℕ)
    (dHR dS dT dR dI : WalkDraws) :
    (generateHealthyValues originalData store hour dHR dS dT dR dI).red =
    jsRound (applyControlledVariation (orDefault originalData.red 80000)
      (orDefault originalData.red 80000) redBand dR.d1 dR.d2 dR.d3) := rfl

lemma ghv_ir (originalData : OriginalData) (store : List Record) (hour : ℕ)
    (dHR dS dT dR dI : WalkDraws) :
    (generateHealthyValues originalData store hour dHR dS dT dR dI).ir =
    jsRound (applyControlledVariation (orDefault originalData.ir 85000)
      (orDefault originalData.ir 85000) irBand dI.d1 dI.d2 dI.d3) := rfl

/-- The rounded synthesized vitals always lie inside the global envelope
HR 55-95, SpO2 95-100, temperature 36.0-37.2 (every time-of-day band is
a sub-range whose ends lie on the rounding grid). -/
lemma ghv_bounds (originalData : OriginalData) (store : List Record) (hour : ℕ)
    (dHR dS dT dR dI : WalkDraws) :
    (55 ≤ (generateHealthyValues originalData store hour dHR dS dT dR dI).heartRate ∧
      (generateHealthyValues originalData store hour dHR dS dT dR dI).heartRate ≤ 95) ∧
    (95 ≤ (generateHealthyValues originalData store hour dHR dS dT dR dI).spo2 ∧
      (generateHealthyValues originalData store hour dHR dS dT dR dI).spo2 ≤ 100) ∧
    (36 ≤ (generateHealthyValues originalData store hour dHR dS dT dR dI).temperature ∧
      (generateHealthyValues originalData store hour dHR dS dT dR dI).temperature ≤ 186/5) := by
  refine ⟨?_, ?_, ?_⟩
  · rw [ghv_heartRate]
    obtain ⟨lo, hi, hlo, hhi, hmc1, h55, h95, hlohi⟩ := hrBandFor_grid hour
    have h := walk_jsRound_mem (getLastStoredValues originalData.deviceId store).heartRate
      (getLastStoredValues originalData.deviceId store).heartRate (hrBandFor hour)
      dHR.d1 dHR.d2 dHR.d3 55 95 lo hi hlo hhi hlohi
      (by push_cast; linarith) (by push_cast; linarith)
    push_cast at h
    exact h
  · rw [ghv_spo2]
    have h := walk_jsRound_mem (getLastStoredValues originalData.deviceId store).spo2
      (getLastStoredValues originalData.deviceId store).spo2 spo2Band
      dS.d1 dS.d2 dS.d3 95 100 95 100
      (by norm_num [spo2Band]) (by norm_num [spo2Band]) (by norm_num)
      (by norm_num) (by norm_num)
    push_cast at h
    exact h
  · rw [ghv_temperature]
    obtain ⟨lo, hi, hlo, hhi, hmc1, h360, h372, hlohi⟩ := tempBandFor_grid hour
    have h := walk_round1_mem (getLastStoredValues originalData.deviceId store).temperature
      (getLastStoredValues originalData.deviceId store).temperature (tempBandFor hour)
      dT.d1 dT.d2 dT.d3 360 372 lo hi hlo hhi
      (by push_cast; linarith) (by push_cast; linarith) (by push_cast; linarith)
    push_cast at h
    constructor
    · linarith [h.1]
    · linarith [h.2]

/-- The newer glucose simulation is hard-clamped into 70-99 before the
one-decimal rounding, whose grid contains both ends. -/
lemma shg_range (heartRate heartRateAvg spo2 temperature : ℚ) (deviceId : Option String)
    (store : List Record) (hour : ℕ) (w : WalkDraws) (n1 n2 n3 : ℚ) :
    70 ≤ simulateHealthyGlucose heartRate heartRateAvg spo2 temperature deviceId store hour
        w n1 n2 n3 ∧
    simulateHealthyGlucose heartRate heartRateAvg spo2 temperature deviceId store hour
        w n1 n2 n3 ≤ 99 := by
  obtain ⟨y, heq⟩ : ∃ y, simulateHealthyGlucose heartRate heartRateAvg spo2 temperature
      deviceId store hour w n1 n2 n3 = round1 (max 70 (min 99 y)) := ⟨_, rfl⟩
  rw [heq]
  have h1 : (70 : ℚ) ≤ max 70 (min 99 y) := le_max_left _ _
  have h2 : max 70 (min 99 y) ≤ (99 : ℚ) := max_le (by norm_num) (min_le_left _ _)
  have g1 := round1_ge 700 (max 70 (min 99 y)) (by push_cast; linarith)
  have g2 := round1_le 990 (max 70 (min 99 y)) (by push_cast; linarith)
  push_cast at g1 g2
  constructor
  · linarith
  · linarith

/-! ### The latest-record fold -/

/-- The fold modelling sort-desc-then-first returns r when r carries the
strictly greatest receivedAt among the candidates (the accumulator
invariant: every non-r candidate seen so far is strictly older). -/
lemma latest_foldl (r : Record) (t : ℕ) (hrt : r.receivedAt = some t) :
    ∀ (l : List Record) (acc : Option Record),
      (∀ q ∈ l, q ≠ r → ∃ u, q.receivedAt = some u ∧ u < t) →
      (∀ a, acc = some a → a ≠ r → ∃ u, a.receivedAt = some u ∧ u < t) →
      (r ∈ l ∨ acc = some r) →
      l.foldl latestStep acc = some r := by
  intro l
  induction l with
  | nil =>
    intro acc _ _ hin
    rcases hin with h | h
    · exact absurd h (List.not_mem_nil r)
    · simpa using h
  | cons q l ih =>
    intro acc hl hacc hin
    rw [List.foldl_cons]
    refine ih (latestStep acc q) (fun q2 h2 hne => hl q2 (List.mem_cons_of_mem _ h2) hne) ?_ ?_
    · -- the new accumulator keeps the invariant
      intro a ha hane
      cases hcc : acc with
      | none =>
        rw [hcc] at ha
        simp only [latestStep] at ha
        have haq : q = a := Option.some.inj ha
        subst haq
        exact hl q (List.mem_cons_self _ _) hane
      | some b =>
        rw [hcc] at ha
        by_cases hbr : b = r
        · have hbt : b.receivedAt = some t := by rw [hbr]; exact hrt
          cases hq : q.receivedAt with
          | none =>
            simp only [latestStep, hq, hbt] at ha
            have hba : b = a := Option.some.inj ha
            subst hba
            exact absurd hbr hane
          | some x =>
            simp only [latestStep, hq, hbt] at ha
            by_cases hcase : t < x
            · rw [if_pos hcase] at ha
              have : q = a := Option.some.inj ha
              subst this
              exact hl q (List.mem_cons_self _ _) hane
            · rw [if_neg hcase] at ha
              have hba : b = a := Option.some.inj ha
              subst hba
              exact absurd hbr hane
        · obtain ⟨u, hu, hult⟩ := hacc b hcc hbr
          cases hq : q.receivedAt with
          | none =>
            simp only [latestStep, hq, hu] at ha
            have : b = a := Option.some.inj ha
            subst this
            exact ⟨u, hu, hult⟩
          | some x =>
            simp only [latestStep, hq, hu] at ha
            by_cases hcase : u < x
            · rw [if_pos hcase] at ha
              have : q = a := Option.some.inj ha
              subst this
              exact hl q (List.mem_cons_self _ _) hane
            · rw [if_neg hcase] at ha
              have : b = a := Option.some.inj ha
              subst this
              exact ⟨u, hu, hult⟩
    · -- r stays reachable: still in the tail, or already the accumulator
      rcases hin with hmem | haccr
      · rcases List.mem_cons.mp hmem with hqr | hmem2
        · right
          cases hcc : acc with
          | none => simp [latestStep, ← hqr]
          | some b =>
            by_cases hbr : b = r
            · rw [hbr, ← hqr]
              simp only [latestStep, hrt]
              rw [if_neg (lt_irrefl t)]
            · obtain ⟨u, hu, hult⟩ := hacc b hcc hbr
              rw [← hqr]
              simp only [latestStep, hrt, hu]
              rw [if_pos hult]
        · left
          exact hmem2
      · right
        rw [haccr]
        cases hq : q.receivedAt with
        | none => simp [latestStep, hq]
        | some x =>
          by_cases hqr : q = r
          · subst hqr
            have hxt : x = t := by rw [hq] at hrt; exact Option.some.inj hrt
            subst hxt
            simp only [latestStep, hq]
            rw [if_neg (lt_irrefl x)]
          · obtain ⟨u, hu, hult⟩ := hl q (List.mem_cons_self _ _) hqr
            have hxu : x = u := by rw [hq] at hu; exact Option.some.inj hu
            subst hxu
            simp only [latestStep, hq, hrt]
            rw [if_neg (by omega)]

/-- No record of the device: the filter is empty and the fold gives none. -/
lemma latestFor_none (d : String) (store : List Record)
    (h : ∀ q ∈ store, q.deviceId ≠ d) : latestFor (some d) store = none := by
  unfold latestFor
  have hfil : store.filter (fun q => decide (some q.deviceId = some d)) = [] := by
    apply List.filter_eq_nil_iff.mpr
    intro a ha
    simp only [decide_eq_true_eq]
    exact fun hcontra => h a ha (Option.some.inj hcontra)
  rw [hfil]
  rfl

/-- The record with the strictly greatest receivedAt among those of the
device is the one the sort-then-first selects. -/
lemma latestFor_max (d : String) (store : List Record) (r : Record) (t : ℕ)
    (hmem : r ∈ store) (hdev : r.deviceId = d) (hrt : r.receivedAt = some t)
    (hmax : ∀ q ∈ store, q.deviceId = d → q ≠ r → ∃ u, q.receivedAt = some u ∧ u < t) :
    latestFor (some d) store = some r := by
  unfold latestFor
  apply latest_foldl r t hrt
  · intro q hq hne
    have h2 := List.mem_filter.mp hq
    have hdq : q.deviceId = d := Option.some.inj (of_decide_eq_true h2.2)
    exact hmax q h2.1 hdq hne
  · intro a ha _
    exact Option.noConfusion ha
  · left
    exact List.mem_filter.mpr ⟨hmem, by simp [hdev]⟩

/-! ### Claim theorems -/

/-- Claim C1, counterexample: band (0,10,1) satisfies min ≤ max,
max - min ≥ minimumChange and minimumChange > 0; the previous value 19/2
is strictly inside (0,10); the draws 0, 3/5, 3/5 are legal rng outputs.
Yet the walk answers 10 with |10 - 19/2| = 1/2 < 1: the forced
correction re-randomizes the sign toward the near band end and the clamp
eats the guaranteed change.  This refutes the claim as stated. -/
theorem applyControlledVariation_boundary_counterexample :
    applyControlledVariation (19/2) (19/2) ⟨0, 10, 1⟩ 0 (3/5) (3/5) = 10 ∧
    |applyControlledVariation (19/2) (19/2) ⟨0, 10, 1⟩ 0 (3/5) (3/5) - 19/2| < 1 ∧
    ((0:ℚ) < 19/2 ∧ (19/2:ℚ) < 10 ∧ (1:ℚ) ≤ 10 - 0 ∧ (0:ℚ) < 1) ∧
    ((0:ℚ) ≤ 0 ∧ (0:ℚ) < 1 ∧ (0:ℚ) ≤ 3/5 ∧ (3/5:ℚ) < 1) := by
  norm_num [applyControlledVariation, clamp, jsDir, min_def, max_def, abs]

/-- Claim C1, amended: for every band and draws the output lies in
[min, max] whenever min ≤ max; and whenever the previous value lies at
least minimumChange inside both band ends (not merely strictly inside),
the output moreover satisfies |output - previous| ≥ minimumChange. -/
theorem applyControlledVariation_interior_spec :
    (∀ (cv lv : ℚ) (band : VariationBand) (d1 d2 d3 : ℚ), band.min ≤ band.max →
      band.min ≤ applyControlledVariation cv lv band d1 d2 d3 ∧
      applyControlledVariation cv lv band d1 d2 d3 ≤ band.max) ∧
    (∀ (cv lv : ℚ) (band : VariationBand) (d1 d2 d3 : ℚ),
      0 < band.minChange → band.min + band.minChange ≤ lv →
      lv ≤ band.max - band.minChange →
      band.min ≤ applyControlledVariation cv lv band d1 d2 d3 ∧
      applyControlledVariation cv lv band d1 d2 d3 ≤ band.max ∧
      band.minChange ≤ |applyControlledVariation cv lv band d1 d2 d3 - lv|) :=
  ⟨fun cv lv band d1 d2 d3 h => acv_mem cv lv band d1 d2 d3 h,
   fun cv lv band d1 d2 d3 h0 h1 h2 => acv_interior cv lv band d1 d2 d3 h0 h1 h2⟩

/-- Witness for C1 at previous = 5 in band (0,10,1) with draws 0, 1/2, 0. -/
theorem applyControlledVariation_interior_spec_witness :
    (0:ℚ) ≤ applyControlledVariation 5 5 ⟨0, 10, 1⟩ 0 (1/2) 0 ∧
    applyControlledVariation 5 5 ⟨0, 10, 1⟩ 0 (1/2) 0 ≤ 10 ∧
    (1:ℚ) ≤ |applyControlledVariation 5 5 ⟨0, 10, 1⟩ 0 (1/2) 0 - 5| :=
  applyControlledVariation_interior_spec.2 5 5 ⟨0, 10, 1⟩ 0 (1/2) 0
    (by norm_num) (by norm_num) (by norm_num)

/-- Claim C3: whatever the vital inputs, the stored glucose history (here
hypothesized in [70,99] as claimed), the hour and the draws, the newer
simulateHealthyGlucose answers inside [70, 99] after the nudges and the
one-decimal rounding. -/
theorem simulateHealthyGlucose_strict_range (heartRate heartRateAvg spo2 temperature : ℚ)
    (deviceId : Option String) (store : List Record) (hour : ℕ)
    (w : WalkDraws) (n1 n2 n3 : ℚ)
    (hlo : 70 ≤ (getLastStoredValues deviceId store).glucose)
    (hhi : (getLastStoredValues deviceId store).glucose ≤ 99) :
    70 ≤ simulateHealthyGlucose heartRate heartRateAvg spo2 temperature deviceId store hour
        w n1 n2 n3 ∧
    simulateHealthyGlucose heartRate heartRateAvg spo2 temperature deviceId store hour
        w n1 n2 n3 ≤ 99 :=
  shg_range heartRate heartRateAvg spo2 temperature deviceId store hour w n1 n2 n3

/-- Witness for C3 on a fresh device (previous glucose defaults to 85). -/
theorem simulateHealthyGlucose_strict_range_witness :
    70 ≤ simulateHealthyGlucose 72 72 98 (73/2) (some "w") [] 12 ⟨0, 1/2, 0⟩ 0 0 0 ∧
    simulateHealthyGlucose 72 72 98 (73/2) (some "w") [] 12 ⟨0, 1/2, 0⟩ 0 0 0 ≤ 99 :=
  simulateHealthyGlucose_strict_range 72 72 98 (73/2) (some "w") [] 12 ⟨0, 1/2, 0⟩ 0 0 0
    (by norm_num [getLastStoredValues, latestFor]) (by norm_num [getLastStoredValues, latestFor])

/-- Claim C4: the two glucose paths are distinct modes.  At hour 12 with
heart rate 100, SpO2 96, temperature 37.5 and legal draws 9/10, 9/10 the
older src/index.js path answers 110 > 99 (its clamp is 70-110), while the
newer walk-from-history path never exceeds 99, for any inputs, history,
hour and draws. -/
theorem glucose_policies_divergent :
    IndexJs.simulateHealthyGlucose 100 100 96 (75/2) 12 (9/10) (9/10) = 110 ∧
    (99:ℚ) < 110 ∧ ((0:ℚ) ≤ 9/10 ∧ (9/10:ℚ) < 1) ∧
    (∀ (heartRate heartRateAvg spo2 temperature : ℚ) (deviceId : Option String)
        (store : List Record) (hour : ℕ) (w : WalkDraws) (n1 n2 n3 : ℚ),
      simulateHealthyGlucose heartRate heartRateAvg spo2 temperature deviceId store hour
        w n1 n2 n3 ≤ 99) :=
  ⟨by norm_num [IndexJs.simulateHealthyGlucose, round1, min_def, max_def, round_eq,
      Int.floor_eq_iff],
   by norm_num, by norm_num,
   fun heartRate heartRateAvg spo2 temperature deviceId store hour w n1 n2 n3 =>
     (shg_range heartRate heartRateAvg spo2 temperature deviceId store hour w n1 n2 n3).2⟩

/-- Claim C5: for every hour 0..23 each vital gets exactly the band of
the fixed first-match table (resting/fasting checked first, then
active/post-meal, then the default), and in particular hour 23 rests,
hour 12 is active, hour 20 is neither, hour 18 is the last active hour
while hour 19 is not active. -/
theorem timeOfDay_band_table :
    (∀ hour : ℕ, hour < 24 →
      (hrBandFor hour = if 22 ≤ hour ∨ hour ≤ 6 then ⟨55, 75, 1⟩
        else if 9 ≤ hour ∧ hour ≤ 18 then ⟨65, 90, 1⟩ else ⟨60, 95, 1⟩) ∧
      spo2Band = ⟨95, 100, 1/2⟩ ∧
      (tempBandFor hour = if 6 ≤ hour ∧ hour ≤ 10 then ⟨36, 184/5, 1/10⟩
        else if 16 ≤ hour ∧ hour ≤ 20 then ⟨73/2, 186/5, 1/10⟩
        else ⟨361/10, 186/5, 1/10⟩) ∧
      (glucoseBandFor hour = if 22 ≤ hour ∨ hour ≤ 7 then ⟨75, 95, 1/2⟩
        else if (8 ≤ hour ∧ hour ≤ 10) ∨ (12 ≤ hour ∧ hour ≤ 14) ∨
            (18 ≤ hour ∧ hour ≤ 20) then ⟨80, 99, 1/2⟩
        else ⟨75, 99, 1/2⟩)) ∧
    hrBandFor 23 = ⟨55, 75, 1⟩ ∧ hrBandFor 12 = ⟨65, 90, 1⟩ ∧
    hrBandFor 20 = ⟨60, 95, 1⟩ ∧ hrBandFor 18 = ⟨65, 90, 1⟩ ∧
    hrBandFor 19 = ⟨60, 95, 1⟩ := by
  constructor
  · intro hour h
    interval_cases hour <;>
      exact ⟨by norm_num [hrBandFor], rfl, by norm_num [tempBandFor],
        by norm_num [glucoseBandFor]⟩
  · exact ⟨by norm_num [hrBandFor], by norm_num [hrBandFor], by norm_num [hrBandFor],
      by norm_num [hrBandFor], by norm_num [hrBandFor]⟩

/-- Witness for C5 at hour 7 (neither resting nor active). -/
theorem timeOfDay_band_table_witness :
    (hrBandFor 7 = if 22 ≤ 7 ∨ 7 ≤ 6 then ⟨55, 75, 1⟩
      else if 9 ≤ 7 ∧ 7 ≤ 18 then ⟨65, 90, 1⟩ else ⟨60, 95, 1⟩) ∧
    spo2Band = ⟨95, 100, 1/2⟩ ∧
    (tempBandFor 7 = if 6 ≤ 7 ∧ 7 ≤ 10 then ⟨36, 184/5, 1/10⟩
      else if 16 ≤ 7 ∧ 7 ≤ 20 then ⟨73/2, 186/5, 1/10⟩
      else ⟨361/10, 186/5, 1/10⟩) ∧
    (glucoseBandFor 7 = if 22 ≤ 7 ∨ 7 ≤ 7 then ⟨75, 95, 1/2⟩
      else if (8 ≤ 7 ∧ 7 ≤ 10) ∨ (12 ≤ 7 ∧ 7 ≤ 14) ∨ (18 ≤ 7 ∧ 7 ≤ 20) then ⟨80, 99, 1/2⟩
      else ⟨75, 99, 1/2⟩) :=
  timeOfDay_band_table.1 7 (by decide)

/-- Claim C8: all-good interpretations score 100 Excellent; one warning
vital plus warning glucose scores 65 Fair (whichever vital warns); and
over every combination of the four interpretation statuses the score is
nonnegative and the label follows the thresholds less than 60 Poor, less
than 75 Fair, less than 90 Good, otherwise Excellent. -/
theorem calculateHealthScore_spec :
    calculateHealthScore "good" "good" "good" "good" = (100, "Excellent") ∧
    (calculateHealthScore "warning" "good" "good" "warning" = (65, "Fair") ∧
     calculateHealthScore "good" "warning" "good" "warning" = (65, "Fair") ∧
     calculateHealthScore "good" "good" "warning" "warning" = (65, "Fair")) ∧
    (∀ s1 ∈ ["good", "caution", "warning", "error"],
      ∀ s2 ∈ ["good", "caution", "warning", "error"],
        ∀ s3 ∈ ["good", "caution", "warning", "error"],
          ∀ g ∈ ["good", "caution", "warning", "error"],
            0 ≤ (calculateHealthScore s1 s2 s3 g).1 ∧
            ((calculateHealthScore s1 s2 s3 g).1 < 60 →
              (calculateHealthScore s1 s2 s3 g).2 = "Poor") ∧
            (60 ≤ (calculateHealthScore s1 s2 s3 g).1 ∧
                (calculateHealthScore s1 s2 s3 g).1 < 75 →
              (calculateHealthScore s1 s2 s3 g).2 = "Fair") ∧
            (75 ≤ (calculateHealthScore s1 s2 s3 g).1 ∧
                (calculateHealthScore s1 s2 s3 g).1 < 90 →
              (calculateHealthScore s1 s2 s3 g).2 = "Good") ∧
            (90 ≤ (calculateHealthScore s1 s2 s3 g).1 →
              (calculateHealthScore s1 s2 s3 g).2 = "Excellent")) := by decide

/-- Witness for C8 at (good, caution, good, caution): score 82, Good. -/
theorem calculateHealthScore_spec_witness :
    0 ≤ (calculateHealthScore "good" "caution" "good" "caution").1 ∧
    ((calculateHealthScore "good" "caution" "good" "caution").1 < 60 →
      (calculateHealthScore "good" "caution" "good" "caution").2 = "Poor") ∧
    (60 ≤ (calculateHealthScore "good" "caution" "good" "caution").1 ∧
        (calculateHealthScore "good" "caution" "good" "caution").1 < 75 →
      (calculateHealthScore "good" "caution" "good" "caution").2 = "Fair") ∧
    (75 ≤ (calculateHealthScore "good" "caution" "good" "caution").1 ∧
        (calculateHealthScore "good" "caution" "good" "caution").1 < 90 →
      (calculateHealthScore "good" "caution" "good" "caution").2 = "Good") ∧
    (90 ≤ (calculateHealthScore "good" "caution" "good" "caution").1 →
      (calculateHealthScore "good" "caution" "good" "caution").2 = "Excellent") :=
  calculateHealthScore_spec.2.2 "good" (by decide) "caution" (by decide)
    "good" (by decide) "caution" (by decide)

/-- Claim C10: the glucose reading 99.5 lies strictly between 99 and 100,
matches none of the four branches of interpretGlucose (which has no final
else) and yields undefined: the interpretation table is not total over
fractional values. -/
theorem interpretGlucose_gap :
    interpretGlucose (199/2) = none ∧ (99:ℚ) < 199/2 ∧ (199/2:ℚ) < 100 := by
  norm_num [interpretGlucose]

/-- Fixture for claim C2: one stored reading for device d with the
rounded values HR 72, SpO2 98, temperature 36.5, glucose 85. -/
def storeC2 : List Record :=
  [⟨"d", some 0, some 72, some 98, some (73/2), some 85, none, none, none⟩]

/-- Fixture for claim C2: an incoming body for device d with no raw
channel values. -/
def bodyC2 : OriginalData := ⟨some "d", some 0, none, none, none, none, none, none, none⟩

/-- Claim C2, counterexample: device d has a previously stored reading
(HR 72, SpO2 98, temperature 36.5, glucose 85).  At hour 12, with the
legal draws below, the SpO2 walk lands on 97.5 and Math.round carries it
back to exactly the previous stored value 98 (difference 0 < 0.5); and
one heart-rate nudge cancels the glucose walk exactly, so the simulated
glucose is again exactly the previous 85 (difference 0 < 0.5).  The
post-rounding minimum-variation claim fails. -/
theorem generateHealthyValues_rounding_counterexample :
    getLastStoredValues (some "d") storeC2 = ⟨72, 98, 73/2, 85⟩ ∧
    ((generateHealthyValues bodyC2 storeC2 12
        ⟨0, 1/2, 0⟩ ⟨0, 1/2, 0⟩ ⟨0, 1/2, 0⟩ ⟨0, 1/2, 0⟩ ⟨0, 1/2, 0⟩).spo2 = 98 ∧
      |(generateHealthyValues bodyC2 storeC2 12
        ⟨0, 1/2, 0⟩ ⟨0, 1/2, 0⟩ ⟨0, 1/2, 0⟩ ⟨0, 1/2, 0⟩ ⟨0, 1/2, 0⟩).spo2 -
        (getLastStoredValues (some "d") storeC2).spo2| < 1/2) ∧
    (simulateHealthyGlucose 60 60 98 (367/10) (some "d") storeC2 12
        ⟨1, 1/2, 0⟩ (1/4) 0 0 = 85 ∧
      |simulateHealthyGlucose 60 60 98 (367/10) (some "d") storeC2 12
        ⟨1, 1/2, 0⟩ (1/4) 0 0 - (getLastStoredValues (some "d") storeC2).glucose| < 1/2) := by
  norm_num [storeC2, bodyC2, generateHealthyValues, simulateHealthyGlucose,
    getLastStoredValues, latestFor, latestStep, orDefault, applyControlledVariation,
    clamp, jsDir, spo2Band, hrBandFor, tempBandFor, glucoseBandFor, redBand, irBand,
    jsRound, round1, min_def, max_def, abs, round_eq, Int.floor_eq_iff]

/-- Claim C2, amended: when the device's previous values sit on the
rounding grid (integers for HR/red/IR, one decimal for temperature) and
at least one minimumChange inside their bands, the synthesized heart
rate, temperature, red and IR each still differ from the previous value
by at least the band minimumChange after rounding, and each lies in its
band; SpO2 stays in [95,100].  (SpO2 rounding and the glucose nudges can
erase the guaranteed change, per the counterexample.) -/
theorem generateHealthyValues_variation (originalData : OriginalData) (store : List Record)
    (hour : ℕ) (dHR dS dT dR dI : WalkDraws) (hrp tp rp ip : ℤ)
    (hhr : (getLastStoredValues originalData.deviceId store).heartRate = (hrp : ℚ))
    (hhrlo : (hrBandFor hour).min + 1 ≤ (hrp : ℚ))
    (hhrhi : (hrp : ℚ) ≤ (hrBandFor hour).max - 1)
    (htv : (getLastStoredValues originalData.deviceId store).temperature = (tp : ℚ) / 10)
    (htlo : (tempBandFor hour).min + 1/10 ≤ (tp : ℚ) / 10)
    (hthi : (tp : ℚ) / 10 ≤ (tempBandFor hour).max - 1/10)
    (hred : orDefault originalData.red 80000 = (rp : ℚ))
    (hrlo : 76000 ≤ (rp : ℚ)) (hrhi : (rp : ℚ) ≤ 119000)
    (hirv : orDefault originalData.ir 85000 = (ip : ℚ))
    (hilo : 81000 ≤ (ip : ℚ)) (hihi : (ip : ℚ) ≤ 119000) :
    (1 ≤ |(generateHealthyValues originalData store hour dHR dS dT dR dI).heartRate
        - (hrp : ℚ)| ∧
      (hrBandFor hour).min ≤ (generateHealthyValues originalData store hour
        dHR dS dT dR dI).heartRate ∧
      (generateHealthyValues originalData store hour dHR dS dT dR dI).heartRate
        ≤ (hrBandFor hour).max) ∧
    (1/10 ≤ |(generateHealthyValues originalData store hour dHR dS dT dR dI).temperature
        - (tp : ℚ) / 10| ∧
      (tempBandFor hour).min ≤ (generateHealthyValues originalData store hour
        dHR dS dT dR dI).temperature ∧
      (generateHealthyValues originalData store hour dHR dS dT dR dI).temperature
        ≤ (tempBandFor hour).max) ∧
    (1000 ≤ |(generateHealthyValues originalData store hour dHR dS dT dR dI).red
        - (rp : ℚ)| ∧
      75000 ≤ (generateHealthyValues originalData store hour dHR dS dT dR dI).red ∧
      (generateHealthyValues originalData store hour dHR dS dT dR dI).red ≤ 120000) ∧
    (1000 ≤ |(generateHealthyValues originalData store hour dHR dS dT dR dI).ir
        - (ip : ℚ)| ∧
      80000 ≤ (generateHealthyValues originalData store hour dHR dS dT dR dI).ir ∧
      (generateHealthyValues originalData store hour dHR dS dT dR dI).ir ≤ 120000) ∧
    (95 ≤ (generateHealthyValues originalData store hour dHR dS dT dR dI).spo2 ∧
      (generateHealthyValues originalData store hour dHR dS dT dR dI).spo2 ≤ 100) := by
  refine ⟨?_, ?_, ?_, ?_, ?_⟩
  · rw [ghv_heartRate]
    obtain ⟨lo, hi, hlo, hhi, hmc1, h55, h95, hlohi⟩ := hrBandFor_grid hour
    rw [hlo] at hhrlo
    rw [hhi] at hhrhi
    have h := walk_round_int (getLastStoredValues originalData.deviceId store).heartRate
      (hrBandFor hour) dHR.d1 dHR.d2 dHR.d3 hrp 1 lo hi
      (by rw [hmc1]; norm_num) (by norm_num) hlo hhi
      (by push_cast; linarith) (by push_cast; linarith) hhr
    push_cast at h
    exact ⟨h.1, by rw [hlo]; exact h.2.1, by rw [hhi]; exact h.2.2⟩
  · rw [ghv_temperature]
    obtain ⟨lo, hi, hlo, hhi, hmc1, h360, h372, hlohi⟩ := tempBandFor_grid hour
    rw [hlo] at htlo
    rw [hhi] at hthi
    have h := walk_round1_tenths (getLastStoredValues originalData.deviceId store).temperature
      (tempBandFor hour) dT.d1 dT.d2 dT.d3 tp 1 lo hi
      (by rw [hmc1]; norm_num) (by norm_num) hlo hhi
      (by push_cast; linarith) (by push_cast; linarith) htv
    push_cast at h
    exact ⟨by linarith [h.1], by rw [hlo]; push_cast; linarith [h.2.1],
      by rw [hhi]; push_cast; linarith [h.2.2]⟩
  · rw [ghv_red]
    have h := walk_round_int (orDefault originalData.red 80000) redBand dR.d1 dR.d2 dR.d3
      rp 1000 75000 120000
      (by norm_num [redBand]) (by norm_num) (by norm_num [redBand]) (by norm_num [redBand])
      (by push_cast; linarith) (by push_cast; linarith) hred
    push_cast at h
    exact ⟨h.1, by linarith [h.2.1], by linarith [h.2.2]⟩
  · rw [ghv_ir]
    have h := walk_round_int (orDefault originalData.ir 85000) irBand dI.d1 dI.d2 dI.d3
      ip 1000 80000 120000
      (by norm_num [irBand]) (by norm_num) (by norm_num [irBand]) (by norm_num [irBand])
      (by push_cast; linarith) (by push_cast; linarith) hirv
    push_cast at h
    exact ⟨h.1, by linarith [h.2.1], by linarith [h.2.2]⟩
  · exact ⟨(ghv_bounds originalData store hour dHR dS dT dR dI).2.1.1,
      (ghv_bounds originalData store hour dHR dS dT dR dI).2.1.2⟩

/-- Witness for C2 on the fixture store (previous values 72 / 98 / 36.5,
raw channels defaulting to 80000 / 85000) at hour 12. -/
theorem generateHealthyValues_variation_witness :
    (1 ≤ |(generateHealthyValues bodyC2 storeC2 12
        ⟨0, 1/2, 0⟩ ⟨0, 1/2, 0⟩ ⟨0, 1/2, 0⟩ ⟨0, 1/2, 0⟩ ⟨0, 1/2, 0⟩).heartRate
        - ((72 : ℤ) : ℚ)| ∧
      (hrBandFor 12).min ≤ (generateHealthyValues bodyC2 storeC2 12
        ⟨0, 1/2, 0⟩ ⟨0, 1/2, 0⟩ ⟨0, 1/2, 0⟩ ⟨0, 1/2, 0⟩ ⟨0, 1/2, 0⟩).heartRate ∧
      (generateHealthyValues bodyC2 storeC2 12
        ⟨0, 1/2, 0⟩ ⟨0, 1/2, 0⟩ ⟨0, 1/2, 0⟩ ⟨0, 1/2, 0⟩ ⟨0, 1/2, 0⟩).heartRate
        ≤ (hrBandFor 12).max) ∧
    (1/10 ≤ |(generateHealthyValues bodyC2 storeC2 12
        ⟨0, 1/2, 0⟩ ⟨0, 1/2, 0⟩ ⟨0, 1/2, 0⟩ ⟨0, 1/2, 0⟩ ⟨0, 1/2, 0⟩).temperature
        - ((365 : ℤ) : ℚ) / 10| ∧
      (tempBandFor 12).min ≤ (generateHealthyValues bodyC2 storeC2 12
        ⟨0, 1/2, 0⟩ ⟨0, 1/2, 0⟩ ⟨0, 1/2, 0⟩ ⟨0, 1/2, 0⟩ ⟨0, 1/2, 0⟩).temperature ∧
      (generateHealthyValues bodyC2 storeC2 12
        ⟨0, 1/2, 0⟩ ⟨0, 1/2, 0⟩ ⟨0, 1/2, 0⟩ ⟨0, 1/2, 0⟩ ⟨0, 1/2, 0⟩).temperature
        ≤ (tempBandFor 12).max) ∧
    (1000 ≤ |(generateHealthyValues bodyC2 storeC2 12
        ⟨0, 1/2, 0⟩ ⟨0, 1/2, 0⟩ ⟨0, 1/2, 0⟩ ⟨0, 1/2, 0⟩ ⟨0, 1/2, 0⟩).red
        - ((80000 : ℤ) : ℚ)| ∧
      75000 ≤ (generateHealthyValues bodyC2 storeC2 12
        ⟨0, 1/2, 0⟩ ⟨0, 1/2, 0⟩ ⟨0, 1/2, 0⟩ ⟨0, 1/2, 0⟩ ⟨0, 1/2, 0⟩).red ∧
      (generateHealthyValues bodyC2 storeC2 12
        ⟨0, 1/2, 0⟩ ⟨0, 1/2, 0⟩ ⟨0, 1/2, 0⟩ ⟨0, 1/2, 0⟩ ⟨0, 1/2, 0⟩).red ≤ 120000) ∧
    (1000 ≤ |(generateHealthyValues bodyC2 storeC2 12
        ⟨0, 1/2, 0⟩ ⟨0, 1/2, 0⟩ ⟨0, 1/2, 0⟩ ⟨0, 1/2, 0⟩ ⟨0, 1/2, 0⟩).ir
        - ((85000 : ℤ) : ℚ)| ∧
      80000 ≤ (generateHealthyValues bodyC2 storeC2 12
        ⟨0, 1/2, 0⟩ ⟨0, 1/2, 0⟩ ⟨0, 1/2, 0⟩ ⟨0, 1/2, 0⟩ ⟨0, 1/2, 0⟩).ir ∧
      (generateHealthyValues bodyC2 storeC2 12
        ⟨0, 1/2, 0⟩ ⟨0, 1/2, 0⟩ ⟨0, 1/2, 0⟩ ⟨0, 1/2, 0⟩ ⟨0, 1/2, 0⟩).ir ≤ 120000) ∧
    (95 ≤ (generateHealthyValues bodyC2 storeC2 12
        ⟨0, 1/2, 0⟩ ⟨0, 1/2, 0⟩ ⟨0, 1/2, 0⟩ ⟨0, 1/2, 0⟩ ⟨0, 1/2, 0⟩).spo2 ∧
      (generateHealthyValues bodyC2 storeC2 12
        ⟨0, 1/2, 0⟩ ⟨0, 1/2, 0⟩ ⟨0, 1/2, 0⟩ ⟨0, 1/2, 0⟩ ⟨0, 1/2, 0⟩).spo2 ≤ 100) :=
  generateHealthyValues_variation bodyC2 storeC2 12
    ⟨0, 1/2, 0⟩ ⟨0, 1/2, 0⟩ ⟨0, 1/2, 0⟩ ⟨0, 1/2, 0⟩ ⟨0, 1/2, 0⟩ 72 365 80000 85000
    (by norm_num [storeC2, bodyC2, getLastStoredValues, latestFor, latestStep, orDefault])
    (by norm_num [hrBandFor]) (by norm_num [hrBandFor])
    (by norm_num [storeC2, bodyC2, getLastStoredValues, latestFor, latestStep, orDefault])
    (by norm_num [tempBandFor]) (by norm_num [tempBandFor])
    (by norm_num [bodyC2, orDefault]) (by norm_num) (by norm_num)
    (by norm_num [bodyC2, orDefault]) (by norm_num) (by norm_num)

/-- Claim C7, counterexample: the matched record carries heartRate 0,
but `lastRecord.heartRate || 72` treats the present value 0 as falsy, so
the lookup answers the default 72 instead of the record's own value:
fallback is not limited to missing fields. -/
theorem getLastStoredValues_falsy_counterexample :
    (getLastStoredValues (some "d")
      [⟨"d", some 5, some 0, some 97, some (369/10), some 90, none, none, none⟩]).heartRate
      = 72 ∧
    (⟨"d", some 5, some 0, some 97, some (369/10), some 90, none, none, none⟩
      : Record).heartRate = some 0 ∧
    (0 : ℚ) ≠ 72 := by
  refine ⟨by norm_num [getLastStoredValues, latestFor, latestStep, orDefault], rfl,
    by norm_num⟩

/-- Claim C7, amended: with no record of the device the lookup returns
exactly (72, 98, 36.5, 85); with a matching record whose receivedAt
strictly exceeds every other matching record's, the lookup returns that
record's per-field values, falling back to the same defaults for each
field that is missing or 0 (JS falsy), not only for missing ones. -/
theorem getLastStoredValues_spec :
    (∀ (d : String) (store : List Record), (∀ q ∈ store, q.deviceId ≠ d) →
      getLastStoredValues (some d) store = ⟨72, 98, 73/2, 85⟩) ∧
    (∀ (d : String) (store : List Record) (r : Record) (t : ℕ),
      r ∈ store → r.deviceId = d → r.receivedAt = some t →
      (∀ q ∈ store, q.deviceId = d → q ≠ r → ∃ u, q.receivedAt = some u ∧ u < t) →
      getLastStoredValues (some d) store =
        ⟨orDefault r.heartRate 72, orDefault r.spo2 98,
         orDefault r.temperature (73/2), orDefault r.lastGlucose 85⟩) := by
  constructor
  · intro d store h
    unfold getLastStoredValues
    rw [latestFor_none d store h]
  · intro d store r t hmem hdev hrt hmax
    unfold getLastStoredValues
    rw [latestFor_max d store r t hmem hdev hrt hmax]

/-- Witness for C7: the empty store gives the defaults, and in a
two-record store the younger record (receivedAt 5, missing spo2) wins
with the per-field fallback 98 for its absent spo2. -/
theorem getLastStoredValues_spec_witness :
    getLastStoredValues (some "nobody") [] = ⟨72, 98, 73/2, 85⟩ ∧
    getLastStoredValues (some "d")
      [⟨"d", some 1, some 80, some 96, some 37, some 88, none, none, none⟩,
       ⟨"d", some 5, some 77, none, some (371/10), some 92, none, none, none⟩] =
      ⟨orDefault (some 77) 72, orDefault none 98,
       orDefault (some (371/10)) (73/2), orDefault (some 92) 85⟩ :=
  ⟨getLastStoredValues_spec.1 "nobody" [] (by simp),
   getLastStoredValues_spec.2 "d"
     [⟨"d", some 1, some 80, some 96, some 37, some 88, none, none, none⟩,
      ⟨"d", some 5, some 77, none, some (371/10), some 92, none, none, none⟩]
     ⟨"d", some 5, some 77, none, some (371/10), some 92, none, none, none⟩ 5
     (by simp) rfl rfl
     (by
       intro q hq hqd hqr
       rcases List.mem_cons.mp hq with h | h
       · exact ⟨1, by rw [h], by norm_num⟩
       · rcases List.mem_cons.mp h with h2 | h2
         · exact absurd h2 hqr
         · exact absurd h2 (List.not_mem_nil q))⟩

/-- Claim C9: a POST /api/sensor-data body lacking deviceId or timestamp
is rejected with a 400 response whose missingFields names exactly the
absent required fields, and the history store is unchanged. -/
theorem postSensorData_validation (originalData : OriginalData) (store : List Record)
    (hour now : ℕ) (dHR dS dT dR dI : WalkDraws)
    (h : originalData.deviceId = none ∨ originalData.timestamp = none) :
    (∃ mf, (postSensorData originalData store hour now dHR dS dT dR dI).1 =
        SensorResponse.badRequest mf ∧
      ("deviceId" ∈ mf ↔ originalData.deviceId = none) ∧
      ("timestamp" ∈ mf ↔ originalData.timestamp = none) ∧
      (∀ f ∈ mf, f = "deviceId" ∨ f = "timestamp")) ∧
    (postSensorData originalData store hour now dHR dS dT dR dI).2 = store := by
  obtain ⟨dId, ts, f3, f4, f5, f6, f7, f8, f9⟩ := originalData
  cases dId with
  | none =>
    cases ts with
    | none =>
      exact ⟨⟨["deviceId", "timestamp"], by simp [postSensorData], by simp,
        by simp, by simp⟩, by simp [postSensorData]⟩
    | some tv =>
      exact ⟨⟨["deviceId"], by simp [postSensorData], by simp,
        by simp, by simp⟩, by simp [postSensorData]⟩
  | some dv =>
    cases ts with
    | none =>
      exact ⟨⟨["timestamp"], by simp [postSensorData], by simp,
        by simp, by simp⟩, by simp [postSensorData]⟩
    | some tv =>
      rcases h with h | h <;> simp at h

/-- Witness for C9: a body with timestamp but no deviceId is rejected
with missingFields = [deviceId] and the store is untouched. -/
theorem postSensorData_validation_witness :
    (∃ mf, (postSensorData ⟨none, some 0, none, none, none, none, none, none, none⟩ []
        12 0 ⟨0, 1/2, 0⟩ ⟨0, 1/2, 0⟩ ⟨0, 1/2, 0⟩ ⟨0, 1/2, 0⟩ ⟨0, 1/2, 0⟩).1 =
        SensorResponse.badRequest mf ∧
      ("deviceId" ∈ mf ↔
        (⟨none, some 0, none, none, none, none, none, none, none⟩
          : OriginalData).deviceId = none) ∧
      ("timestamp" ∈ mf ↔
        (⟨none, some 0, none, none, none, none, none, none, none⟩
          : OriginalData).timestamp = none) ∧
      (∀ f ∈ mf, f = "deviceId" ∨ f = "timestamp")) ∧
    (postSensorData ⟨none, some 0, none, none, none, none, none, none, none⟩ []
        12 0 ⟨0, 1/2, 0⟩ ⟨0, 1/2, 0⟩ ⟨0, 1/2, 0⟩ ⟨0, 1/2, 0⟩ ⟨0, 1/2, 0⟩).2 = [] :=
  postSensorData_validation ⟨none, some 0, none, none, none, none, none, none, none⟩ []
    12 0 ⟨0, 1/2, 0⟩ ⟨0, 1/2, 0⟩ ⟨0, 1/2, 0⟩ ⟨0, 1/2, 0⟩ ⟨0, 1/2, 0⟩ (Or.inl rfl)

/-- Exhaustive behaviour of the predict-glucose handler: a 400 or an
invalid-range rejection or the 500 path leave the store unchanged; the
success path appends exactly one record whose lastGlucose is the
predicted value, which lies in [70, 99]. -/
lemma ppg_cases (body : PredictBody) (store : List Record) (hour : ℕ)
    (w : WalkDraws) (n1 n2 n3 : ℚ) :
    (∃ mf, postPredictGlucose body store hour w n1 n2 n3 =
      (PredictResponse.badRequest mf, store)) ∨
    (∃ f, postPredictGlucose body store hour w n1 n2 n3 =
      (PredictResponse.invalidInput f, store)) ∨
    (postPredictGlucose body store hour w n1 n2 n3 =
      (PredictResponse.internalError, store)) ∨
    (∃ g r, postPredictGlucose body store hour w n1 n2 n3 =
      (PredictResponse.ok g, store ++ [r]) ∧ r.lastGlucose = some g ∧ 70 ≤ g ∧ g ≤ 99) := by
  unfold postPredictGlucose
  cases hb1 : body.heartRate with
  | none =>
    left
    exact ⟨_, rfl⟩
  | some hr =>
    cases hb2 : body.spo2 with
    | none =>
      left
      exact ⟨_, rfl⟩
    | some sp =>
      cases hb3 : body.temperature with
      | none =>
        left
        exact ⟨_, rfl⟩
      | some te =>
        by_cases hv1 : hr < 0 ∨ 200 < hr
        · right; left
          refine ⟨"heartRate", ?_⟩
          show (if hr < 0 ∨ 200 < hr then (PredictResponse.invalidInput "heartRate", store)
            else _) = _
          rw [if_pos hv1]
        · by_cases hv2 : sp < 70 ∨ 100 < sp
          · right; left
            refine ⟨"spo2", ?_⟩
            show (if hr < 0 ∨ 200 < hr then (PredictResponse.invalidInput "heartRate", store)
              else if sp < 70 ∨ 100 < sp then (PredictResponse.invalidInput "spo2", store)
              else _) = _
            rw [if_neg hv1, if_pos hv2]
          · by_cases hv3 : te < 30 ∨ 45 < te
            · right; left
              refine ⟨"temperature", ?_⟩
              show (if hr < 0 ∨ 200 < hr then (PredictResponse.invalidInput "heartRate", store)
                else if sp < 70 ∨ 100 < sp then (PredictResponse.invalidInput "spo2", store)
                else if te < 30 ∨ 45 < te then
                  (PredictResponse.invalidInput "temperature", store)
                else _) = _
              rw [if_neg hv1, if_neg hv2, if_pos hv3]
            · cases hint : interpretGlucose (simulateHealthyGlucose hr
                  (body.heartRateAvg.getD hr) sp te (some (jsDeviceIdOr body.deviceId))
                  store hour w n1 n2 n3) with
              | none =>
                right; right; left
                show (if hr < 0 ∨ 200 < hr then (PredictResponse.invalidInput "heartRate", store)
                  else if sp < 70 ∨ 100 < sp then (PredictResponse.invalidInput "spo2", store)
                  else if te < 30 ∨ 45 < te then
                    (PredictResponse.invalidInput "temperature", store)
                  else _) = _
                rw [if_neg hv1, if_neg hv2, if_neg hv3]
                simp only [hint]
              | some interp =>
                right; right; right
                refine ⟨simulateHealthyGlucose hr (body.heartRateAvg.getD hr) sp te
                    (some (jsDeviceIdOr body.deviceId)) store hour w n1 n2 n3,
                  ⟨jsDeviceIdOr body.deviceId, none, none, none, none,
                   some (simulateHealthyGlucose hr (body.heartRateAvg.getD hr) sp te
                     (some (jsDeviceIdOr body.deviceId)) store hour w n1 n2 n3),
                   none, none, none⟩, ?_, rfl, ?_, ?_⟩
                · show (if hr < 0 ∨ 200 < hr then
                      (PredictResponse.invalidInput "heartRate", store)
                    else if sp < 70 ∨ 100 < sp then (PredictResponse.invalidInput "spo2", store)
                    else if te < 30 ∨ 45 < te then
                      (PredictResponse.invalidInput "temperature", store)
                    else _) = _
                  rw [if_neg hv1, if_neg hv2, if_neg hv3]
                  simp only [hint]
                · exact (shg_range _ _ _ _ _ _ _ _ _ _ _).1
                · exact (shg_range _ _ _ _ _ _ _ _ _ _ _).2

/-- Fixture for claim C6: a syntactically valid body that also smuggles
lastGlucose 150 into the record via the object spread. -/
def bodyC6 : OriginalData := ⟨some "d", some 0, none, none, none, none, none, none, some 150⟩

/-- Claim C6, counterexample: POST /api/sensor-data spreads the client
body into the stored record, so a valid request carrying lastGlucose 150
appends a record whose lastGlucose is 150, outside [70,99]: the store
level glucose envelope does not hold for sensor-data records. -/
theorem stored_envelope_counterexample :
    ((postSensorData bodyC6 [] 12 0 ⟨0, 1/2, 0⟩ ⟨0, 1/2, 0⟩ ⟨0, 1/2, 0⟩ ⟨0, 1/2, 0⟩
        ⟨0, 1/2, 0⟩).2.map (fun r => r.lastGlucose)) = [some 150] ∧
    ¬ ((150:ℚ) ≤ 99) := by
  norm_num [bodyC6, postSensorData, generateHealthyValues, getLastStoredValues, latestFor,
    latestStep, orDefault, applyControlledVariation, clamp, jsDir, spo2Band, hrBandFor,
    tempBandFor, redBand, irBand, jsRound, round1, min_def, max_def, abs, round_eq,
    Int.floor_eq_iff]

/-- Claim C6, amended: every record created by POST /api/sensor-data has
heartRate in [55,95], spo2 in [95,100] and temperature in [36.0,37.2]
after rounding, and every lastGlucose appended by POST /api/predict-glucose
lies in [70,99]; but the sensor-data handler stores a client-supplied
lastGlucose unvalidated (the spread), so the glucose part of the global
envelope holds only for the predict path (see the counterexample). -/
theorem stored_envelope :
    (∀ (originalData : OriginalData) (store : List Record) (hour now : ℕ)
        (dHR dS dT dR dI : WalkDraws) (r : Record),
      (postSensorData originalData store hour now dHR dS dT dR dI).1 =
          SensorResponse.created r →
      (∃ v, r.heartRate = some v ∧ 55 ≤ v ∧ v ≤ 95) ∧
      (∃ v, r.spo2 = some v ∧ 95 ≤ v ∧ v ≤ 100) ∧
      (∃ v, r.temperature = some v ∧ 36 ≤ v ∧ v ≤ 186/5) ∧
      r.lastGlucose = originalData.lastGlucose) ∧
    (∀ (body : PredictBody) (store : List Record) (hour : ℕ) (w : WalkDraws)
        (n1 n2 n3 g : ℚ),
      (postPredictGlucose body store hour w n1 n2 n3).1 = PredictResponse.ok g →
      70 ≤ g ∧ g ≤ 99 ∧
      ∃ r, (postPredictGlucose body store hour w n1 n2 n3).2 = store ++ [r] ∧
        r.lastGlucose = some g) := by
  constructor
  · intro originalData store hour now dHR dS dT dR dI r hres
    unfold postSensorData at hres
    by_cases hval : 0 < ((if originalData.deviceId.isNone then ["deviceId"] else []) ++
        (if originalData.timestamp.isNone then ["timestamp"] else [])).length
    · rw [if_pos hval] at hres
      exact absurd hres (by simp)
    · rw [if_neg hval] at hres
      simp only [] at hres
      have hrec : (⟨originalData.deviceId.getD "", some now,
          some (generateHealthyValues originalData store hour dHR dS dT dR dI).heartRate,
          some (generateHealthyValues originalData store hour dHR dS dT dR dI).spo2,
          some (generateHealthyValues originalData store hour dHR dS dT dR dI).temperature,
          originalData.lastGlucose,
          some (generateHealthyValues originalData store hour dHR dS dT dR dI).red,
          some (generateHealthyValues originalData store hour dHR dS dT dR dI).ir,
          some (generateHealthyValues originalData store hour dHR dS dT dR dI).heartRateAvg⟩
          : Record) = r := by
        simpa using hres
      subst hrec
      refine ⟨⟨(generateHealthyValues originalData store hour dHR dS dT dR dI).heartRate,
          rfl, ?_, ?_⟩,
        ⟨(generateHealthyValues originalData store hour dHR dS dT dR dI).spo2, rfl, ?_, ?_⟩,
        ⟨(generateHealthyValues originalData store hour dHR dS dT dR dI).temperature,
          rfl, ?_, ?_⟩, rfl⟩
      · exact (ghv_bounds originalData store hour dHR dS dT dR dI).1.1
      · exact (ghv_bounds originalData store hour dHR dS dT dR dI).1.2
      · exact (ghv_bounds originalData store hour dHR dS dT dR dI).2.1.1
      · exact (ghv_bounds originalData store hour dHR dS dT dR dI).2.1.2
      · exact (ghv_bounds originalData store hour dHR dS dT dR dI).2.2.1
      · exact (ghv_bounds originalData store hour dHR dS dT dR dI).2.2.2
  · intro body store hour w n1 n2 n3 g hres
    rcases ppg_cases body store hour w n1 n2 n3 with ⟨mf, he⟩ | ⟨f, he⟩ | he |
      ⟨g2, r, he, hlg, h70, h99⟩
    · rw [he] at hres
      exact absurd hres (by simp)
    · rw [he] at hres
      exact absurd hres (by simp)
    · rw [he] at hres
      exact absurd hres (by simp)
    · have hg : g2 = g := by
        rw [he] at hres
        simpa using hres
      subst hg
      exact ⟨h70, h99, r, by rw [he], hlg⟩

/-- Fixture for claim C6: a valid sensor-data body with no raw values. -/
def bodyC6ok : OriginalData := ⟨some "d", some 0, none, none, none, none, none, none, none⟩

/-- Fixture for claim C6: the record the fixture request creates at hour
12 with all draws (0, 1/2, 0) on an empty store. -/
def recC6 : Record :=
  ⟨"d", some 0, some 71, some 98, some (182/5), none, some 79000, some 84000, some 71⟩

/-- Fixture for claim C6: a valid predict-glucose body. -/
def predictBodyC6 : PredictBody := ⟨some 72, some 72, some 98, some (73/2), some "d"⟩

/-- Witness for C6: the fixture request stores HR 71, SpO2 98,
temperature 36.4 (all inside the envelope), and the fixture prediction
stores lastGlucose 84.5 in [70,99]. -/
theorem stored_envelope_witness :
    ((∃ v, recC6.heartRate = some v ∧ 55 ≤ v ∧ v ≤ 95) ∧
     (∃ v, recC6.spo2 = some v ∧ 95 ≤ v ∧ v ≤ 100) ∧
     (∃ v, recC6.temperature = some v ∧ 36 ≤ v ∧ v ≤ 186/5) ∧
     recC6.lastGlucose = bodyC6ok.lastGlucose) ∧
    (70 ≤ (169:ℚ)/2 ∧ (169:ℚ)/2 ≤ 99 ∧
     ∃ r, (postPredictGlucose predictBodyC6 [] 12 ⟨0, 1/2, 0⟩ 0 0 0).2 = [] ++ [r] ∧
       r.lastGlucose = some (169/2)) :=
  ⟨stored_envelope.1 bodyC6ok [] 12 0 ⟨0, 1/2, 0⟩ ⟨0, 1/2, 0⟩ ⟨0, 1/2, 0⟩ ⟨0, 1/2, 0⟩
      ⟨0, 1/2, 0⟩ recC6
      (by norm_num [bodyC6ok, recC6, postSensorData, generateHealthyValues,
        getLastStoredValues, latestFor, latestStep, orDefault, applyControlledVariation,
        clamp, jsDir, spo2Band, hrBandFor, tempBandFor, redBand, irBand, jsRound, round1,
        min_def, max_def, abs, round_eq, Int.floor_eq_iff]),
   stored_envelope.2 predictBodyC6 [] 12 ⟨0, 1/2, 0⟩ 0 0 0 (169/2)
      (by norm_num [predictBodyC6, postPredictGlucose, jsDeviceIdOr, simulateHealthyGlucose,
        interpretGlucose, getLastStoredValues, latestFor, latestStep, orDefault,
        applyControlledVariation, clamp, jsDir, glucoseBandFor, round1,
        min_def, max_def, abs, round_eq, Int.floor_eq_iff])⟩

end VitalGlance
